import Mathlib

/- Shallow embedding of the serial framing and connection-lifecycle core of
   the SparkFun Swarm M138 GUI (src/Swarm_M138_GUI/Swarm_M138_GUI.py).

   The external collaborators (OS serial-port enumeration, the QSerialPort
   transport, the log file) are modelled by a `SerialEnv` record that fixes,
   for the duration of one event handler, which ports the OS enumerates and
   whether the transport write, the transport close and the log-file write
   succeed.  The mutable widget state that the handlers read and write
   (selected port, open flag, timer flag, logging flag, text windows, bytes
   written to the serial port, receive buffer) is the `GuiState` record.
   Strings stand for the byte sequences the code sends and receives: every
   byte written by the code is the UTF-8 encoding of the corresponding text,
   and for the ASCII payloads of interest the character codes are the bytes. -/

namespace SwarmGUI

/-- Uppercase hexadecimal digit character for a value below 16. -/
def hexDigitU (n : Nat) : Char :=
  ['0', '1', '2', '3', '4', '5', '6', '7', '8', '9',
   'A', 'B', 'C', 'D', 'E', 'F'].getD n '0'

/-- Fuel-indexed big-endian list of uppercase hexadecimal digits of `n`.
    Fuel `n + 1` always suffices because `n / 16 < n` for `n ≥ 16`. -/
def hexDigitsCore : Nat → Nat → List Char
  | 0, _ => []
  | fuel + 1, n =>
    if n < 16 then [hexDigitU n]
    else hexDigitsCore fuel (n / 16) ++ [hexDigitU (n % 16)]

/-- Big-endian uppercase hexadecimal digits of `n` (at least one digit). -/
def hexDigits (n : Nat) : List Char := hexDigitsCore (n + 1) n

/-- Python `str.format` with format spec `{:02X}` (lines 429 and 435):
    uppercase hexadecimal, zero-padded on the left to a width of at least
    two digits; values of 256 or more print more than two digits. -/
def format02X (n : Nat) : String :=
  String.mk (List.replicate (2 - (hexDigits n).length) '0' ++ hexDigits n)

/-- `chksum_nmea` (lines 366-374): starting from 0, XOR the code point of
    every character of `sentence` in order (`csum ^= ord(c)`). -/
def chksum_nmea (sentence : String) : Nat :=
  sentence.data.foldl (fun csum c => Nat.xor csum c.toNat) 0

/-- The outbound frame text assembled in lines 426-436 of
    `on_send_message_btn_pressed`: a literal dollar sign, the payload
    verbatim, a literal asterisk, the checksum formatted with `{:02X}`,
    and a newline. -/
def frameOf (payload : String) : String :=
  "$" ++ payload ++ "*" ++ format02X (chksum_nmea payload) ++ "\n"

/-- One event-handler run of the external collaborators: the serial ports the
    OS currently enumerates as (description, name, systemLocation) triples,
    and whether the transport write, the transport close and the log-file
    write fail during this run. -/
structure SerialEnv where
  ports : List (String × String × String)
  writeFails : Bool
  closeFails : Bool
  logWriteFails : Bool
  deriving DecidableEq

/-- The mutable state of `MainWidget` that the modelled handlers touch. -/
structure GuiState where
  /-- `self.port`: systemLocation of the selected combobox entry. -/
  port : String
  /-- Whether `self.ser` exists and `self.ser.isOpen()` holds. -/
  serOpen : Bool
  /-- Whether `self.timer` (the port-availability monitor) is running. -/
  timerActive : Bool
  /-- `self.fileOpen`: whether the session logger is active. -/
  fileOpen : Bool
  /-- `self.config.toPlainText()`: the message payload typed by the user. -/
  configText : String
  /-- Texts appended to the serial-monitor window `self.terminal`. -/
  terminal : List String
  /-- Texts appended to the information/warning window `self.messages`. -/
  messages : List String
  /-- Concatenation of all bytes written to the serial port, as text. -/
  serialOut : String
  /-- Lines successfully written to the log file `self.f`. -/
  logged : List String
  /-- Bytes received from the port but not yet forming a complete line. -/
  recvBuffer : List Char
  deriving DecidableEq

/-- `gen_serial_ports` (lines 97-100) followed by the membership loop used in
    lines 379-385, 644-651 and 621-628: the selected port is available when
    some enumerated triple has it as its systemLocation. -/
def portAvailable (env : SerialEnv) (port : String) : Bool :=
  env.ports.any (fun t => t.2.2 == port)

/-- `self.messages.appendPlainText(m)` (the cursor and repaint calls have no
    modelled effect). -/
def appendMessage (s : GuiState) (m : String) : GuiState :=
  { s with messages := s.messages ++ [m] }

/-- A `try: self.ser.close() except: pass` block: releasing the handle marks
    the port closed unless the transport close fails, in which case the
    exception is swallowed and the handle stays in its previous state. -/
def tryCloseSer (env : SerialEnv) (s : GuiState) : GuiState :=
  if env.closeFails then s else { s with serOpen := false }

/-- `endTimer` (lines 616-617): stop the port-availability monitor. -/
def endTimer (s : GuiState) : GuiState :=
  { s with timerActive := false }

/-- `startTimer` (lines 613-614): start the port-availability monitor. -/
def startTimer (s : GuiState) : GuiState :=
  { s with timerActive := true }

/-- One `self.ser.write(chunk)` call: QSerialPort.write returns -1 on
    failure and the code never checks the result, so a failing write
    silently transmits nothing. -/
def serWrite (env : SerialEnv) (s : GuiState) (chunk : String) : GuiState :=
  if env.writeFails then s else { s with serialOut := s.serialOut ++ chunk }

/-- The `if self.fileOpen == True: try: self.f.write(text) except IOError:`
    block shared by lines 443-455 and 596-609: when logging is active, a
    successful write appends the text to the log; a failing write clears
    `self.fileOpen`, reports the error and closes the handle best-effort. -/
def logWrite (env : SerialEnv) (s : GuiState) (text : String) : GuiState :=
  if s.fileOpen then
    if env.logWriteFails then
      { s with fileOpen := false,
               messages := s.messages ++ ["Error: Could Not Write To File!"] }
    else { s with logged := s.logged ++ [text] }
  else s

/-- `on_send_message_btn_pressed` (lines 376-455): check the port is still
    enumerated, check the handle is open, check the payload is non-empty,
    then write the five frame chunks to the serial port, append the same
    frame text to the terminal and hand it to the session logger. -/
def on_send_message_btn_pressed (env : SerialEnv) (s : GuiState) : GuiState :=
  if portAvailable env s.port = false then
    endTimer (tryCloseSer env
      (appendMessage s "Error: Port No Longer Available!"))
  else if s.serOpen = false then
    endTimer (tryCloseSer env (appendMessage s "Error: Port Is Not Open!"))
  else if s.configText = "" then
    appendMessage s "Warning: Nothing To Do! Message Is Empty!"
  else
    let s1 := serWrite env s "$"
    let s2 := serWrite env s1 s.configText
    let s3 := serWrite env s2 "*"
    let s4 := serWrite env s3 (format02X (chksum_nmea s.configText))
    let s5 := serWrite env s4 "\n"
    let msg := frameOf s.configText
    let s6 := { s5 with terminal := s5.terminal ++ [msg] }
    logWrite env s6 msg

/-- `check_port_still_available` (lines 619-640): the body of one monitor
    tick.  If the selected port vanished from the enumeration, report it,
    close the handle best-effort and stop the monitor; otherwise nothing. -/
def check_port_still_available (env : SerialEnv) (s : GuiState) : GuiState :=
  if portAvailable env s.port = false then
    endTimer (tryCloseSer env
      (appendMessage s "Error: Port No Longer Available!"))
  else s

/-- `on_close_port_btn_pressed` (lines 642-701): if the port vanished or the
    handle is not open, report it and stop the monitor; otherwise release
    the handle, reporting a failure of `self.ser.close()` and returning
    without touching any other state, and on success reporting the close.
    Neither of the last two branches stops the monitor. -/
def on_close_port_btn_pressed (env : SerialEnv) (s : GuiState) : GuiState :=
  if portAvailable env s.port = false then
    endTimer (tryCloseSer env
      (appendMessage s "Error: Port No Longer Available!"))
  else if s.serOpen = false then
    endTimer (tryCloseSer env (appendMessage s "Port Is Already Closed!"))
  else if env.closeFails then
    appendMessage s "Error: Could Not Close The Port!"
  else
    appendMessage { s with serOpen := false } "Port is now closed"

/-- Split buffered bytes into the complete newline-terminated lines
    (terminator included, exactly as `QIODevice.readLine` returns it)
    followed by the trailing partial line that stays buffered.  This is the
    effect of the `while self.ser.canReadLine(): self.ser.readLine()` loop
    of `receive` (lines 585-611) on the device buffer. -/
def splitLines : List Char → List (List Char) × List Char
  | [] => ([], [])
  | c :: rest =>
    let res := splitLines rest
    if c = '\n' then (['\n'] :: res.1, res.2)
    else
      match res.1 with
      | [] => ([], c :: res.2)
      | l :: ls => ((c :: l) :: ls, res.2)

/-- State of the line receiver in isolation: the bytes buffered inside the
    serial device and the lines emitted so far. -/
structure RecvState where
  buffer : List Char
  emitted : List (List Char)
  deriving DecidableEq

/-- One read event of the line receiver: the newly arrived bytes join the
    device buffer and the `receive` loop drains every complete line from it,
    in order, leaving the trailing partial line buffered. -/
def feedBytes (st : RecvState) (incoming : List Char) : RecvState :=
  let res := splitLines (st.buffer ++ incoming)
  { buffer := res.2, emitted := st.emitted ++ res.1 }

/-- Feed a sequence of read events to the line receiver. -/
def feedAll (st : RecvState) (chunks : List (List Char)) : RecvState :=
  chunks.foldl feedBytes st

/-- The trailing terminator of an emitted line: drop one final newline and,
    when present, the carriage return before it, leaving the line content. -/
def lineContent (line : List Char) : List Char :=
  match line.reverse with
  | '\n' :: '\r' :: rest => rest.reverse
  | '\n' :: rest => rest.reverse
  | _ => line

/-- The body of the `receive` loop (lines 589-609) for one complete line:
    the decoded text is inserted into the terminal window and then handed to
    the session logger. -/
def processLine (env : SerialEnv) (s : GuiState) (line : List Char) : GuiState :=
  logWrite env
    { s with terminal := s.terminal ++ [String.mk line] } (String.mk line)

/-- `receive` (lines 585-611) upon arrival of `incoming` bytes: the bytes
    join the device buffer, and the loop drains and processes every complete
    line currently buffered. -/
def receive_event (env : SerialEnv) (s : GuiState) (incoming : List Char) :
    GuiState :=
  let res := splitLines (s.recvBuffer ++ incoming)
  { res.1.foldl (processLine env) s with recvBuffer := res.2 }

/-- Numeric value of an uppercase hexadecimal digit character, as
    `int(d, 16)` would decode it. -/
def hexVal (c : Char) : Nat :=
  if 65 ≤ c.toNat then c.toNat - 55 else c.toNat - 48

/-- The trailing two hexadecimal digits of a frame — the two characters just
    before the final newline terminator — interpreted as a number. -/
def frameChecksumField (fr : String) : Nat :=
  match fr.data.reverse with
  | _ :: d2 :: d1 :: _ => 16 * hexVal d1 + hexVal d2
  | _ => 0

/-- Whether a character is an uppercase hexadecimal digit. -/
def isUpperHexDigit (c : Char) : Bool :=
  (48 ≤ c.toNat && c.toNat ≤ 57) || (65 ≤ c.toNat && c.toNat ≤ 70)

/-- A sample environment: one enumerated USB serial adapter and a transport
    and file system that do not fail. -/
def demoEnv : SerialEnv :=
  { ports := [("USB Serial Device", "ttyUSB0", "/dev/ttyUSB0")],
    writeFails := false, closeFails := false, logWriteFails := false }

/-- A sample state: the enumerated adapter is selected and open, the monitor
    is running, logging is off and the payload reads `CS`. -/
def demoOpen : GuiState :=
  { port := "/dev/ttyUSB0", serOpen := true, timerActive := true,
    fileOpen := false, configText := "CS", terminal := [], messages := [],
    serialOut := "", logged := [], recvBuffer := [] }

/-- Sample environment in which the log-file write fails. -/
def demoEnvLogFail : SerialEnv := { demoEnv with logWriteFails := true }

/-- Sample environment in which the transport write fails. -/
def demoEnvWriteFail : SerialEnv := { demoEnv with writeFails := true }

/-- Sample environment in which releasing the serial handle fails. -/
def demoEnvCloseFail : SerialEnv := { demoEnv with closeFails := true }

/-- Sample open state with session logging active. -/
def demoOpenLogging : GuiState := { demoOpen with fileOpen := true }

/-- Sample state whose selected port is no longer enumerated. -/
def demoOpenGone : GuiState := { demoOpen with port := "/dev/ttyACM9" }

/-- Sample state with an empty message payload. -/
def demoOpenEmpty : GuiState := { demoOpen with configText := "" }

/-- Sample state with a vanished port and an empty payload at once. -/
def demoOpenGoneEmpty : GuiState :=
  { demoOpen with port := "/dev/ttyACM9", configText := "" }

/-- Sample closed state: the port is enumerated but the handle is closed. -/
def demoClosed : GuiState := { demoOpen with serOpen := false }

/- Helper lemmas about the hexadecimal formatter and the checksum. -/

theorem hexDigitsCore_of_lt (fuel n : Nat) (hf : 1 ≤ fuel) (hn : n < 16) :
    hexDigitsCore fuel n = [hexDigitU n] := by
  cases fuel with
  | zero => omega
  | succ f => simp [hexDigitsCore, hn]

theorem hexDigits_of_lt (n : Nat) (hn : n < 16) :
    hexDigits n = [hexDigitU n] :=
  hexDigitsCore_of_lt (n + 1) n (by omega) hn

theorem hexDigits_of_lt_256 (n : Nat) (h16 : 16 ≤ n) (h : n < 256) :
    hexDigits n = [hexDigitU (n / 16), hexDigitU (n % 16)] := by
  have hn : ¬ n < 16 := by omega
  have hdiv : n / 16 < 16 := by omega
  have hfuel : 1 ≤ n := by omega
  unfold hexDigits hexDigitsCore
  simp only [hn, if_false]
  rw [hexDigitsCore_of_lt n (n / 16) hfuel hdiv]
  rfl

theorem format02X_of_lt_256 (n : Nat) (h : n < 256) :
    format02X n = String.mk [hexDigitU (n / 16), hexDigitU (n % 16)] := by
  by_cases hn : n < 16
  · have hd : n / 16 = 0 := Nat.div_eq_of_lt hn
    have hm : n % 16 = n := Nat.mod_eq_of_lt hn
    simp [format02X, hexDigits_of_lt n hn, hd, hm, hexDigitU, List.replicate]
  · simp [format02X, hexDigits_of_lt_256 n (by omega) h, List.replicate]

theorem format02X_length (n : Nat) (h : n < 256) :
    (format02X n).length = 2 := by
  rw [format02X_of_lt_256 n h]
  rfl

theorem hexDigitU_isUpper : ∀ n < 16, isUpperHexDigit (hexDigitU n) = true := by
  decide

theorem hexVal_hexDigitU : ∀ n < 16, hexVal (hexDigitU n) = n := by
  decide

theorem format02X_chars (n : Nat) (h : n < 256) :
    ∀ c ∈ (format02X n).data, isUpperHexDigit c = true := by
  rw [format02X_of_lt_256 n h]
  intro c hc
  have hdiv : n / 16 < 16 := by omega
  have hmod : n % 16 < 16 := Nat.mod_lt n (by omega)
  have hc2 : c = hexDigitU (n / 16) ∨ c = hexDigitU (n % 16) := by
    simpa using hc
  rcases hc2 with rfl | rfl
  · exact hexDigitU_isUpper (n / 16) hdiv
  · exact hexDigitU_isUpper (n % 16) hmod

/- Helper lemmas about the line receiver. -/

theorem splitLines_no_newline (l : List Char) (h : ∀ c ∈ l, c ≠ '\n') :
    splitLines l = ([], l) := by
  induction l with
  | nil => rfl
  | cons c cs ih =>
    have hc : c ≠ '\n' := h c (by simp)
    have ih2 := ih (fun d hd => h d (by simp [hd]))
    simp [splitLines, ih2, hc]

theorem splitLines_rest_no_newline (l : List Char) :
    ∀ c ∈ (splitLines l).2, c ≠ '\n' := by
  induction l with
  | nil => simp [splitLines]
  | cons c cs ih =>
    by_cases hc : c = '\n'
    · subst hc
      simpa [splitLines] using ih
    · cases h1 : (splitLines cs).1 with
      | nil =>
        intro d hd
        simp only [splitLines, hc, if_false, h1] at hd
        rcases List.mem_cons.mp hd with rfl | hd2
        · exact hc
        · exact ih d hd2
      | cons l0 ls =>
        intro d hd
        simp only [splitLines, hc, if_false, h1] at hd
        exact ih d hd

theorem splitLines_append (a b : List Char) :
    splitLines (a ++ b) =
      ((splitLines a).1 ++ (splitLines ((splitLines a).2 ++ b)).1,
       (splitLines ((splitLines a).2 ++ b)).2) := by
  induction a with
  | nil => simp [splitLines]
  | cons c a ih =>
    by_cases hc : c = '\n'
    · subst hc
      simp [splitLines, ih]
    · cases h1 : (splitLines a).1 with
      | nil =>
        have h2 : (splitLines (a ++ b)).1 =
            (splitLines ((splitLines a).2 ++ b)).1 := by
          rw [ih, h1]
          simp
        have h3 : (splitLines (a ++ b)).2 =
            (splitLines ((splitLines a).2 ++ b)).2 := by
          rw [ih]
        cases h4 : (splitLines ((splitLines a).2 ++ b)).1 with
        | nil =>
          simp only [List.cons_append, splitLines, hc, if_false, h1, h4,
            h2 ▸ h4]
          simp [splitLines, hc, h1, h3, h2, h4]
        | cons m ms =>
          simp [splitLines, hc, h1, h2, h3, h4]
      | cons l0 ls =>
        have h2 : (splitLines (a ++ b)).1 =
            l0 :: (ls ++ (splitLines ((splitLines a).2 ++ b)).1) := by
          rw [ih, h1]
          simp
        have h3 : (splitLines (a ++ b)).2 =
            (splitLines ((splitLines a).2 ++ b)).2 := by
          rw [ih]
        simp [splitLines, hc, h1, h2, h3]

theorem feedAll_spec (chunks : List (List Char)) (st : RecvState)
    (hst : ∀ c ∈ st.buffer, c ≠ '\n') :
    feedAll st chunks =
      { buffer := (splitLines (st.buffer ++ chunks.flatten)).2,
        emitted :=
          st.emitted ++ (splitLines (st.buffer ++ chunks.flatten)).1 } := by
  induction chunks generalizing st with
  | nil =>
    cases st with
    | mk buffer emitted =>
      simp [feedAll, splitLines_no_newline buffer hst]
  | cons c cs ih =>
    have hstep : feedAll st (c :: cs) = feedAll (feedBytes st c) cs := rfl
    rw [hstep, ih (feedBytes st c)
      (fun d hd => splitLines_rest_no_newline (st.buffer ++ c) d hd)]
    have hjoin : st.buffer ++ (c :: cs).flatten =
        (st.buffer ++ c) ++ cs.flatten := by
      simp
    rw [hjoin, splitLines_append (st.buffer ++ c) cs.flatten]
    simp [feedBytes]

theorem foldl_processLine_terminal (env : SerialEnv)
    (lines : List (List Char)) (s : GuiState) :
    (lines.foldl (processLine env) s).terminal =
      s.terminal ++ lines.map (fun l => String.mk l) := by
  induction lines generalizing s with
  | nil => simp
  | cons l ls ih =>
    have hone : (processLine env s l).terminal = s.terminal ++ [String.mk l] := by
      unfold processLine logWrite
      by_cases hf : s.fileOpen = true
      · by_cases hw : env.logWriteFails = true
        · simp [hf, hw]
        · simp [hf, hw]
      · simp [hf]
    rw [List.foldl_cons, ih]
    rw [hone]
    simp

theorem foldl_xor_lt (l : List Char) (acc : Nat) (hacc : acc < 128)
    (h : ∀ c ∈ l, c.toNat < 128) :
    l.foldl (fun csum c => Nat.xor csum c.toNat) acc < 128 := by
  induction l generalizing acc with
  | nil => simpa using hacc
  | cons c cs ih =>
    refine ih _ ?_ ?_
    · have h1 : c.toNat < 2 ^ 7 := by simpa using h c (by simp)
      have h2 : acc < 2 ^ 7 := by simpa using hacc
      simpa using Nat.xor_lt_two_pow h2 h1
    · intro d hd
      exact h d (by simp [hd])

theorem chksum_lt_128 (p : String) (h : ∀ c ∈ p.data, c.toNat ≤ 126) :
    chksum_nmea p < 128 := by
  refine foldl_xor_lt p.data 0 (by omega) ?_
  intro c hc
  have := h c hc
  omega

/- Branch characterizations of the send handler and the logger. -/

theorem logWrite_serialOut (env : SerialEnv) (s : GuiState) (t : String) :
    (logWrite env s t).serialOut = s.serialOut := by
  unfold logWrite
  by_cases hf : s.fileOpen = true
  · by_cases hw : env.logWriteFails = true
    · simp [hf, hw]
    · simp [hf, hw]
  · simp [hf]

theorem logWrite_terminal (env : SerialEnv) (s : GuiState) (t : String) :
    (logWrite env s t).terminal = s.terminal := by
  unfold logWrite
  by_cases hf : s.fileOpen = true
  · by_cases hw : env.logWriteFails = true
    · simp [hf, hw]
    · simp [hf, hw]
  · simp [hf]

theorem logWrite_serOpen (env : SerialEnv) (s : GuiState) (t : String) :
    (logWrite env s t).serOpen = s.serOpen := by
  unfold logWrite
  by_cases hf : s.fileOpen = true
  · by_cases hw : env.logWriteFails = true
    · simp [hf, hw]
    · simp [hf, hw]
  · simp [hf]

theorem logWrite_timerActive (env : SerialEnv) (s : GuiState) (t : String) :
    (logWrite env s t).timerActive = s.timerActive := by
  unfold logWrite
  by_cases hf : s.fileOpen = true
  · by_cases hw : env.logWriteFails = true
    · simp [hf, hw]
    · simp [hf, hw]
  · simp [hf]

theorem logWrite_messages_ok (env : SerialEnv) (s : GuiState) (t : String)
    (hw : env.logWriteFails = false) :
    (logWrite env s t).messages = s.messages := by
  unfold logWrite
  by_cases hf : s.fileOpen = true
  · simp [hf, hw]
  · simp [hf]

theorem logWrite_logged_ok (env : SerialEnv) (s : GuiState) (t : String)
    (hf : s.fileOpen = true) (hw : env.logWriteFails = false) :
    (logWrite env s t).logged = s.logged ++ [t] := by
  unfold logWrite
  simp [hf, hw]

theorem logWrite_fail (env : SerialEnv) (s : GuiState) (t : String)
    (hf : s.fileOpen = true) (hw : env.logWriteFails = true) :
    logWrite env s t =
      { s with fileOpen := false,
               messages := s.messages ++ ["Error: Could Not Write To File!"] } := by
  unfold logWrite
  simp [hf, hw]

/-- The path of `on_send_message_btn_pressed` in which every precondition
    holds and the transport writes succeed: the frame goes out on the wire,
    is appended to the terminal, and is handed to the logger. -/
theorem send_success_state (env : SerialEnv) (s : GuiState)
    (hport : portAvailable env s.port = true) (hopen : s.serOpen = true)
    (hne : ¬ s.configText = "") (hw : env.writeFails = false) :
    on_send_message_btn_pressed env s =
      logWrite env
        { s with serialOut := s.serialOut ++ frameOf s.configText,
                 terminal := s.terminal ++ [frameOf s.configText] }
        (frameOf s.configText) := by
  have h1 : ¬ (portAvailable env s.port = false) := by simp [hport]
  have h2 : ¬ (s.serOpen = false) := by simp [hopen]
  unfold on_send_message_btn_pressed
  rw [if_neg h1, if_neg h2, if_neg hne]
  simp only [serWrite, hw, Bool.false_eq_true, if_false]
  have hso : s.serialOut ++ "$" ++ s.configText ++ "*" ++
      format02X (chksum_nmea s.configText) ++ "\n" =
      s.serialOut ++ frameOf s.configText := by
    simp [frameOf, String.append_assoc]
  rw [hso]

/-- The path of `on_send_message_btn_pressed` in which every precondition
    holds but the transport writes fail: the failed writes are silently
    ignored, nothing reaches the wire, and the handler continues exactly as
    on success, appending the frame to the terminal and the logger. -/
theorem send_writefail_state (env : SerialEnv) (s : GuiState)
    (hport : portAvailable env s.port = true) (hopen : s.serOpen = true)
    (hne : ¬ s.configText = "") (hw : env.writeFails = true) :
    on_send_message_btn_pressed env s =
      logWrite env
        { s with terminal := s.terminal ++ [frameOf s.configText] }
        (frameOf s.configText) := by
  have h1 : ¬ (portAvailable env s.port = false) := by simp [hport]
  have h2 : ¬ (s.serOpen = false) := by simp [hopen]
  unfold on_send_message_btn_pressed
  rw [if_neg h1, if_neg h2, if_neg hne]
  simp only [serWrite, hw, if_true]

/-- Reading off the trailing checksum field of a frame whose character list,
    reversed, starts with the terminator and the two hex digits. -/
theorem frameChecksumField_cons (a d2 d1 : Char) (t : List Char) (fr : String)
    (h : fr.data.reverse = a :: d2 :: d1 :: t) :
    frameChecksumField fr = 16 * hexVal d1 + hexVal d2 := by
  unfold frameChecksumField
  rw [h]

/-- C1: for every non-empty payload of printable ASCII characters sent while
    the selected port is still enumerated, the handle is open and the
    transport writes succeed, the byte sequence transmitted on the wire —
    and the identical text appended to the terminal and handed to the log —
    is exactly dollar + payload + asterisk + the checksum of the payload as
    two uppercase hexadecimal digits + newline, and nothing else is
    written. -/
theorem frame_wire_format (env : SerialEnv) (s : GuiState) (p : String)
    (hp : s.configText = p) (hne : ¬ p = "")
    (hprint : ∀ c ∈ p.data, 32 ≤ c.toNat ∧ c.toNat ≤ 126)
    (hport : portAvailable env s.port = true) (hopen : s.serOpen = true)
    (hw : env.writeFails = false) :
    (on_send_message_btn_pressed env s).serialOut = s.serialOut ++ frameOf p ∧
    (on_send_message_btn_pressed env s).terminal = s.terminal ++ [frameOf p] ∧
    (s.fileOpen = true → env.logWriteFails = false →
      (on_send_message_btn_pressed env s).logged = s.logged ++ [frameOf p]) ∧
    frameOf p = "$" ++ p ++ "*" ++ format02X (chksum_nmea p) ++ "\n" ∧
    (format02X (chksum_nmea p)).length = 2 ∧
    ∀ c ∈ (format02X (chksum_nmea p)).data, isUpperHexDigit c = true := by
  subst hp
  have hchk : chksum_nmea s.configText < 256 := by
    have := chksum_lt_128 s.configText (fun c hc => (hprint c hc).2)
    omega
  have hstate := send_success_state env s hport hopen hne hw
  refine ⟨?_, ?_, ?_, rfl, format02X_length _ hchk, format02X_chars _ hchk⟩
  · rw [hstate, logWrite_serialOut]
  · rw [hstate, logWrite_terminal]
  · intro hf hlw
    rw [hstate]
    exact logWrite_logged_ok env _ _ hf hlw

theorem frame_wire_format_witness :
    (on_send_message_btn_pressed demoEnv demoOpen).serialOut =
        demoOpen.serialOut ++ frameOf "CS" ∧
    (on_send_message_btn_pressed demoEnv demoOpen).terminal =
        demoOpen.terminal ++ [frameOf "CS"] ∧
    (demoOpen.fileOpen = true → demoEnv.logWriteFails = false →
      (on_send_message_btn_pressed demoEnv demoOpen).logged =
        demoOpen.logged ++ [frameOf "CS"]) ∧
    frameOf "CS" = "$" ++ "CS" ++ "*" ++ format02X (chksum_nmea "CS") ++ "\n" ∧
    (format02X (chksum_nmea "CS")).length = 2 ∧
    ∀ c ∈ (format02X (chksum_nmea "CS")).data, isUpperHexDigit c = true :=
  frame_wire_format demoEnv demoOpen "CS" rfl (by decide) (by decide)
    (by decide) (by decide) (by decide)

/-- C2: the checksum of the empty string is 0, the checksum satisfies the
    left-to-right XOR recurrence — appending one character XORs its code
    point into the running checksum — and the checksum is a deterministic
    function of the payload. -/
theorem chksum_nmea_characterization :
    chksum_nmea "" = 0 ∧
    (∀ s : String, ∀ c : Char,
      chksum_nmea (s.push c) = Nat.xor (chksum_nmea s) c.toNat) ∧
    (∀ s t : String, s = t → chksum_nmea s = chksum_nmea t) := by
  refine ⟨rfl, ?_, ?_⟩
  · intro s c
    have hd : (s.push c).data = s.data ++ [c] := by
      cases s
      rfl
    simp [chksum_nmea, hd, List.foldl_append]
  · intro s t h
    rw [h]

theorem chksum_nmea_characterization_witness :
    chksum_nmea "" = 0 ∧
    chksum_nmea ("CS".push '1') = Nat.xor (chksum_nmea "CS") (Char.toNat '1') ∧
    chksum_nmea "CS" = chksum_nmea "CS" :=
  ⟨chksum_nmea_characterization.1,
   chksum_nmea_characterization.2.1 "CS" '1',
   chksum_nmea_characterization.2.2 "CS" "CS" rfl⟩

/-- C3 (amended): for every non-empty payload whose XOR checksum is below
    256 — in particular every payload of ASCII characters — recomputing the
    checksum over the payload portion of the encoded frame equals the
    frame's trailing two hexadecimal digits interpreted as a number.  The
    counterexample shows the unrestricted claim fails for payloads
    containing characters above U+00FF, where the checksum field printed by
    the `{:02X}` format has more than two digits. -/
theorem frame_roundtrip_byte (p : String) (_hne : p ≠ "")
    (h : chksum_nmea p < 256) :
    frameChecksumField (frameOf p) = chksum_nmea p := by
  have hrev : (frameOf p).data.reverse =
      '\n' :: hexDigitU (chksum_nmea p % 16) ::
        hexDigitU (chksum_nmea p / 16) ::
        ('*' :: (p.data.reverse ++ ['$'])) := by
    unfold frameOf
    rw [format02X_of_lt_256 _ h]
    simp [String.data_append]
  rw [frameChecksumField_cons _ _ _ _ _ hrev]
  have hdiv : chksum_nmea p / 16 < 16 := by omega
  have hmod : chksum_nmea p % 16 < 16 := Nat.mod_lt _ (by omega)
  rw [hexVal_hexDigitU _ hdiv, hexVal_hexDigitU _ hmod]
  omega

theorem frame_roundtrip_byte_witness :
    ("CS" : String) ≠ "" ∧ chksum_nmea "CS" < 256 ∧
    frameChecksumField (frameOf "CS") = chksum_nmea "CS" :=
  ⟨by decide, by decide, frame_roundtrip_byte "CS" (by decide) (by decide)⟩

theorem frame_roundtrip_cex :
    String.mk [Char.ofNat 256] ≠ "" ∧
    frameChecksumField (frameOf (String.mk [Char.ofNat 256])) ≠
      chksum_nmea (String.mk [Char.ofNat 256]) := by
  decide

theorem tryCloseSer_messages (env : SerialEnv) (s : GuiState) :
    (tryCloseSer env s).messages = s.messages := by
  unfold tryCloseSer
  by_cases hc : env.closeFails = true
  · simp [hc]
  · simp [hc]

/-- C4 (amended): the port-availability monitor is stopped on every
    transition into Closed that the error branches force — a vanished port
    detected by send, close or a monitor tick, and a send or close issued
    while the handle is not open — but a successful manual close() while
    Open leaves the monitor running, so the timer can still fire while the
    connection is Closed; such a tick is a no-op while the port remains
    enumerated. -/
theorem monitor_stop_behavior :
    (∀ env s, portAvailable env s.port = false →
      (on_send_message_btn_pressed env s).timerActive = false ∧
      (on_close_port_btn_pressed env s).timerActive = false ∧
      (check_port_still_available env s).timerActive = false) ∧
    (∀ env s, portAvailable env s.port = true → s.serOpen = false →
      (on_send_message_btn_pressed env s).timerActive = false ∧
      (on_close_port_btn_pressed env s).timerActive = false) ∧
    (∀ env s, portAvailable env s.port = true → s.serOpen = true →
      env.closeFails = false →
      (on_close_port_btn_pressed env s).serOpen = false ∧
      (on_close_port_btn_pressed env s).timerActive = s.timerActive) ∧
    (∀ env s, portAvailable env s.port = true →
      check_port_still_available env s = s) := by
  refine ⟨?_, ?_, ?_, ?_⟩
  · intro env s h
    refine ⟨?_, ?_, ?_⟩
    · unfold on_send_message_btn_pressed
      rw [if_pos h]
      simp [endTimer]
    · unfold on_close_port_btn_pressed
      rw [if_pos h]
      simp [endTimer]
    · unfold check_port_still_available
      rw [if_pos h]
      simp [endTimer]
  · intro env s hp hso
    have h1 : ¬ (portAvailable env s.port = false) := by simp [hp]
    refine ⟨?_, ?_⟩
    · unfold on_send_message_btn_pressed
      rw [if_neg h1, if_pos hso]
      simp [endTimer]
    · unfold on_close_port_btn_pressed
      rw [if_neg h1, if_pos hso]
      simp [endTimer]
  · intro env s hp hso hcf
    have h1 : ¬ (portAvailable env s.port = false) := by simp [hp]
    have h2 : ¬ (s.serOpen = false) := by simp [hso]
    have h3 : ¬ (env.closeFails = true) := by simp [hcf]
    unfold on_close_port_btn_pressed
    rw [if_neg h1, if_neg h2, if_neg h3]
    exact ⟨rfl, rfl⟩
  · intro env s hp
    have h1 : ¬ (portAvailable env s.port = false) := by simp [hp]
    unfold check_port_still_available
    rw [if_neg h1]

theorem monitor_stop_behavior_witness :
    (on_send_message_btn_pressed demoEnv demoOpenGone).timerActive = false ∧
    (on_close_port_btn_pressed demoEnv demoClosed).timerActive = false ∧
    check_port_still_available demoEnv demoOpen = demoOpen :=
  ⟨(monitor_stop_behavior.1 demoEnv demoOpenGone (by decide)).1,
   (monitor_stop_behavior.2.1 demoEnv demoClosed (by decide) (by decide)).2,
   monitor_stop_behavior.2.2.2 demoEnv demoOpen (by decide)⟩

theorem monitor_stop_cex :
    (on_close_port_btn_pressed demoEnv demoOpen).serOpen = false ∧
    (on_close_port_btn_pressed demoEnv demoOpen).timerActive = true := by
  decide

/-- C5 (amended): send distinguishes only two of the three failure
    conditions with distinct signals — send while the port has vanished
    from the enumeration reports one error text and send while the handle
    is not open reports a different one — but a failure of the transport
    write itself is never detected: the results of the five write calls are
    ignored, no message is emitted, and the handler completes as on
    success. -/
theorem send_error_signals :
    ("Error: Port No Longer Available!" ≠ "Error: Port Is Not Open!") ∧
    (∀ env s, portAvailable env s.port = false →
      (on_send_message_btn_pressed env s).messages =
        s.messages ++ ["Error: Port No Longer Available!"]) ∧
    (∀ env s, portAvailable env s.port = true → s.serOpen = false →
      (on_send_message_btn_pressed env s).messages =
        s.messages ++ ["Error: Port Is Not Open!"]) ∧
    (∀ env s, portAvailable env s.port = true → s.serOpen = true →
      ¬ s.configText = "" → env.logWriteFails = false →
      (on_send_message_btn_pressed env s).messages = s.messages) := by
  refine ⟨by decide, ?_, ?_, ?_⟩
  · intro env s h
    unfold on_send_message_btn_pressed
    rw [if_pos h]
    simp [endTimer, tryCloseSer_messages, appendMessage]
  · intro env s hp hso
    have h1 : ¬ (portAvailable env s.port = false) := by simp [hp]
    unfold on_send_message_btn_pressed
    rw [if_neg h1, if_pos hso]
    simp [endTimer, tryCloseSer_messages, appendMessage]
  · intro env s hp hso hne hlw
    by_cases hw : env.writeFails = true
    · rw [send_writefail_state env s hp hso hne hw,
        logWrite_messages_ok _ _ _ hlw]
    · rw [send_success_state env s hp hso hne (by simpa using hw),
        logWrite_messages_ok _ _ _ hlw]

theorem send_error_signals_witness :
    (on_send_message_btn_pressed demoEnv demoOpenGone).messages =
      demoOpenGone.messages ++ ["Error: Port No Longer Available!"] ∧
    (on_send_message_btn_pressed demoEnv demoClosed).messages =
      demoClosed.messages ++ ["Error: Port Is Not Open!"] ∧
    (on_send_message_btn_pressed demoEnvWriteFail demoOpen).messages =
      demoOpen.messages :=
  ⟨send_error_signals.2.1 demoEnv demoOpenGone (by decide),
   send_error_signals.2.2.1 demoEnv demoClosed (by decide) (by decide),
   send_error_signals.2.2.2 demoEnvWriteFail demoOpen (by decide) (by decide)
     (by decide) (by decide)⟩

theorem send_error_signals_cex :
    (on_send_message_btn_pressed demoEnvWriteFail demoOpen).messages =
      demoOpen.messages ∧
    (on_send_message_btn_pressed demoEnvWriteFail demoOpen).serialOut =
      demoOpen.serialOut := by
  decide

/-- C6 (amended): when the transport write performed by send fails, the
    failure goes undetected — send emits no report, transmits nothing, and
    leaves the connection state and the monitor unchanged, while the frame
    text is still appended to the terminal (and handed to the logger) as if
    it had been sent. -/
theorem send_writefail_behavior (env : SerialEnv) (s : GuiState)
    (hp : portAvailable env s.port = true) (hso : s.serOpen = true)
    (hne : ¬ s.configText = "") (hw : env.writeFails = true) :
    (on_send_message_btn_pressed env s).serOpen = true ∧
    (on_send_message_btn_pressed env s).timerActive = s.timerActive ∧
    (on_send_message_btn_pressed env s).serialOut = s.serialOut ∧
    (env.logWriteFails = false →
      (on_send_message_btn_pressed env s).messages = s.messages) ∧
    (on_send_message_btn_pressed env s).terminal =
      s.terminal ++ [frameOf s.configText] := by
  have hstate := send_writefail_state env s hp hso hne hw
  refine ⟨?_, ?_, ?_, ?_, ?_⟩
  · rw [hstate, logWrite_serOpen]
    exact hso
  · rw [hstate, logWrite_timerActive]
  · rw [hstate, logWrite_serialOut]
  · intro hlw
    rw [hstate, logWrite_messages_ok _ _ _ hlw]
  · rw [hstate, logWrite_terminal]

theorem send_writefail_behavior_witness :
    (on_send_message_btn_pressed demoEnvWriteFail demoOpen).serOpen = true ∧
    (on_send_message_btn_pressed demoEnvWriteFail demoOpen).timerActive =
      demoOpen.timerActive ∧
    (on_send_message_btn_pressed demoEnvWriteFail demoOpen).serialOut =
      demoOpen.serialOut ∧
    (demoEnvWriteFail.logWriteFails = false →
      (on_send_message_btn_pressed demoEnvWriteFail demoOpen).messages =
        demoOpen.messages) ∧
    (on_send_message_btn_pressed demoEnvWriteFail demoOpen).terminal =
      demoOpen.terminal ++ [frameOf demoOpen.configText] :=
  send_writefail_behavior demoEnvWriteFail demoOpen (by decide) (by decide)
    (by decide) (by decide)

theorem send_writefail_cex :
    (on_send_message_btn_pressed demoEnvWriteFail
        { demoOpen with configText := "FV" }).messages = [] ∧
    (on_send_message_btn_pressed demoEnvWriteFail
        { demoOpen with configText := "FV" }).serialOut = "" := by
  decide

/-- C7 (amended): if close() is called while the connection is Open and
    releasing the underlying handle fails, the failure is reported but the
    connection state is left unchanged — the manager still treats the
    handle as Open and the monitor keeps running; only a successful release
    transitions the state to Closed. -/
theorem close_failure_behavior (env : SerialEnv) (s : GuiState)
    (hp : portAvailable env s.port = true) (hso : s.serOpen = true) :
    (env.closeFails = true →
      on_close_port_btn_pressed env s =
        { s with messages :=
            s.messages ++ ["Error: Could Not Close The Port!"] }) ∧
    (env.closeFails = false →
      on_close_port_btn_pressed env s =
        { s with serOpen := false,
                 messages := s.messages ++ ["Port is now closed"] }) := by
  have h1 : ¬ (portAvailable env s.port = false) := by simp [hp]
  have h2 : ¬ (s.serOpen = false) := by simp [hso]
  constructor
  · intro hcf
    unfold on_close_port_btn_pressed
    rw [if_neg h1, if_neg h2, if_pos hcf]
    rfl
  · intro hcf
    unfold on_close_port_btn_pressed
    rw [if_neg h1, if_neg h2, if_neg (by simp [hcf])]
    rfl

theorem close_failure_behavior_witness :
    on_close_port_btn_pressed demoEnvCloseFail demoOpen =
      { demoOpen with messages :=
          demoOpen.messages ++ ["Error: Could Not Close The Port!"] } ∧
    on_close_port_btn_pressed demoEnv demoOpen =
      { demoOpen with serOpen := false,
                      messages := demoOpen.messages ++ ["Port is now closed"] } :=
  ⟨(close_failure_behavior demoEnvCloseFail demoOpen (by decide)
      (by decide)).1 (by decide),
   (close_failure_behavior demoEnv demoOpen (by decide) (by decide)).2
      (by decide)⟩

theorem close_failure_cex :
    (on_close_port_btn_pressed demoEnvCloseFail demoOpen).serOpen = true ∧
    (on_close_port_btn_pressed demoEnvCloseFail demoOpen).messages =
      ["Error: Could Not Close The Port!"] := by
  decide

/-- C8: for every split of the incoming byte stream into read events, the
    line receiver emits exactly the complete terminator-delimited lines of
    the joined stream, in arrival order, keeping any trailing partial line
    buffered until a later event completes it; in particular feeding
    `AB\r\nCD` and then `EF\r\n` emits exactly the two lines `AB` and
    `CDEF` (each carried with its `\r\n` terminator as `readLine` returns
    it), with an empty buffer left over, regardless of chunk boundaries. -/
theorem line_receiver_chunks :
    (∀ chunks : List (List Char),
      feedAll ⟨[], []⟩ chunks =
        { buffer := (splitLines chunks.flatten).2,
          emitted := (splitLines chunks.flatten).1 }) ∧
    (feedAll ⟨[], []⟩ ["AB\r\nCD".data, "EF\r\n".data]).emitted =
        ["AB\r\n".data, "CDEF\r\n".data] ∧
    (feedAll ⟨[], []⟩ ["AB\r\nCD".data, "EF\r\n".data]).emitted.map
        lineContent = ["AB".data, "CDEF".data] ∧
    (feedAll ⟨[], []⟩ ["AB\r\nCD".data, "EF\r\n".data]).buffer = [] := by
  refine ⟨?_, by decide, by decide, by decide⟩
  intro chunks
  have h := feedAll_spec chunks ⟨[], []⟩ (by intro c hc; simp at hc)
  simpa using h

/-- C9: when a log-file write fails during a send or a receive, the logger
    is marked inactive and the failure is reported, while the operation
    that triggered the write still completes — the frame is still
    transmitted and displayed by send, the line is still displayed by
    receive, and later lines of the same read event are still processed. -/
theorem logger_failure_isolation :
    (∀ env s, portAvailable env s.port = true → s.serOpen = true →
      ¬ s.configText = "" → s.fileOpen = true → env.logWriteFails = true →
      env.writeFails = false →
      (on_send_message_btn_pressed env s).serialOut =
          s.serialOut ++ frameOf s.configText ∧
      (on_send_message_btn_pressed env s).terminal =
          s.terminal ++ [frameOf s.configText] ∧
      (on_send_message_btn_pressed env s).fileOpen = false ∧
      (on_send_message_btn_pressed env s).messages =
          s.messages ++ ["Error: Could Not Write To File!"] ∧
      (on_send_message_btn_pressed env s).logged = s.logged) ∧
    (∀ env s line, s.fileOpen = true → env.logWriteFails = true →
      processLine env s line =
        { s with terminal := s.terminal ++ [String.mk line],
                 fileOpen := false,
                 messages :=
                   s.messages ++ ["Error: Could Not Write To File!"] }) ∧
    (∀ env s incoming,
      (receive_event env s incoming).terminal =
        s.terminal ++
          ((splitLines (s.recvBuffer ++ incoming)).1.map
            fun l => String.mk l)) := by
  refine ⟨?_, ?_, ?_⟩
  · intro env s hp hso hne hf hlw hw
    have hstate := send_success_state env s hp hso hne hw
    have hfail := logWrite_fail env
      { s with serialOut := s.serialOut ++ frameOf s.configText,
               terminal := s.terminal ++ [frameOf s.configText] }
      (frameOf s.configText) hf hlw
    rw [hstate, hfail]
    exact ⟨rfl, rfl, rfl, rfl, rfl⟩
  · intro env s line hf hlw
    unfold processLine
    exact logWrite_fail env _ _ hf hlw
  · intro env s incoming
    unfold receive_event
    simpa using foldl_processLine_terminal env
      (splitLines (s.recvBuffer ++ incoming)).1 s

theorem logger_failure_isolation_witness :
    ((on_send_message_btn_pressed demoEnvLogFail demoOpenLogging).serialOut =
        demoOpenLogging.serialOut ++ frameOf demoOpenLogging.configText ∧
      (on_send_message_btn_pressed demoEnvLogFail demoOpenLogging).terminal =
        demoOpenLogging.terminal ++ [frameOf demoOpenLogging.configText] ∧
      (on_send_message_btn_pressed demoEnvLogFail demoOpenLogging).fileOpen =
        false ∧
      (on_send_message_btn_pressed demoEnvLogFail demoOpenLogging).messages =
        demoOpenLogging.messages ++ ["Error: Could Not Write To File!"] ∧
      (on_send_message_btn_pressed demoEnvLogFail demoOpenLogging).logged =
        demoOpenLogging.logged) ∧
    processLine demoEnvLogFail demoOpenLogging "RT 1".data =
      { demoOpenLogging with
          terminal := demoOpenLogging.terminal ++ [String.mk "RT 1".data],
          fileOpen := false,
          messages :=
            demoOpenLogging.messages ++ ["Error: Could Not Write To File!"] } ∧
    (receive_event demoEnvLogFail demoOpenLogging "A\nB\n".data).terminal =
      demoOpenLogging.terminal ++
        ((splitLines (demoOpenLogging.recvBuffer ++ "A\nB\n".data)).1.map
          fun l => String.mk l) :=
  ⟨logger_failure_isolation.1 demoEnvLogFail demoOpenLogging (by decide)
      (by decide) (by decide) (by decide) (by decide) (by decide),
   logger_failure_isolation.2.1 demoEnvLogFail demoOpenLogging "RT 1".data
      (by decide) (by decide),
   logger_failure_isolation.2.2 demoEnvLogFail demoOpenLogging "A\nB\n".data⟩

/-- C10: send checks its preconditions in a fixed order — port presence in
    the current OS enumeration first, then the open state of the handle,
    then non-emptiness of the payload — so an empty payload submitted while
    the port has vanished reports the port-lost error, not the empty
    warning; and the empty-payload branch appends the warning and changes
    nothing else: no transmission, and the connection state, the monitor
    and the logger state are untouched. -/
theorem send_precondition_order :
    (∀ env s, portAvailable env s.port = false →
      on_send_message_btn_pressed env s =
        endTimer (tryCloseSer env
          (appendMessage s "Error: Port No Longer Available!"))) ∧
    (∀ env s, portAvailable env s.port = true → s.serOpen = false →
      on_send_message_btn_pressed env s =
        endTimer (tryCloseSer env
          (appendMessage s "Error: Port Is Not Open!"))) ∧
    (∀ env s, portAvailable env s.port = true → s.serOpen = true →
      s.configText = "" →
      on_send_message_btn_pressed env s =
        { s with messages :=
            s.messages ++ ["Warning: Nothing To Do! Message Is Empty!"] }) := by
  refine ⟨?_, ?_, ?_⟩
  · intro env s h
    unfold on_send_message_btn_pressed
    rw [if_pos h]
  · intro env s hp hso
    have h1 : ¬ (portAvailable env s.port = false) := by simp [hp]
    unfold on_send_message_btn_pressed
    rw [if_neg h1, if_pos hso]
  · intro env s hp hso hemp
    have h1 : ¬ (portAvailable env s.port = false) := by simp [hp]
    have h2 : ¬ (s.serOpen = false) := by simp [hso]
    unfold on_send_message_btn_pressed
    rw [if_neg h1, if_neg h2, if_pos hemp]
    rfl

theorem send_precondition_order_witness :
    on_send_message_btn_pressed demoEnv demoOpenGoneEmpty =
      endTimer (tryCloseSer demoEnv
        (appendMessage demoOpenGoneEmpty
          "Error: Port No Longer Available!")) ∧
    on_send_message_btn_pressed demoEnv
        { demoClosed with configText := "" } =
      endTimer (tryCloseSer demoEnv
        (appendMessage { demoClosed with configText := "" }
          "Error: Port Is Not Open!")) ∧
    on_send_message_btn_pressed demoEnv demoOpenEmpty =
      { demoOpenEmpty with messages :=
          demoOpenEmpty.messages ++
            ["Warning: Nothing To Do! Message Is Empty!"] } :=
  ⟨send_precondition_order.1 demoEnv demoOpenGoneEmpty (by decide),
   send_precondition_order.2.1 demoEnv { demoClosed with configText := "" }
      (by decide) (by decide),
   send_precondition_order.2.2 demoEnv demoOpenEmpty (by decide) (by decide)
      (by decide)⟩

end SwarmGUI
